import Mathlib

/-!
Verification development for the TJPR case-lookup service
(`src/consulta.py` of monitoramento-processual-tjpr).

The Python source is shallowly embedded below:

* HTML documents (`BeautifulSoup` trees) become the inductive `Node`;
  the BeautifulSoup operations used by the code (`find_all`, `find`,
  `get_text(strip=True)`, `stripped_strings`, `.contents`, `.string`,
  attribute access) become executable functions on `Node`.
* `extrair_movimentacoes`, `formatar_numero_processo`,
  `extrair_url_token`, `resolver_captcha` are translated one to one;
  Python exceptions become `Except String`.
* The body of `fetch`'s `try:` block (the session orchestration,
  lines 146-308) becomes `orchestrate`, parameterised by an
  environment of HTTP responses (`OrchEnv`) and by the regex patterns
  (`Patterns`, each an abstract single-capture match function).
* `fetch` itself becomes a well-founded recursive function.  The
  Python `finally: return results` semantics (the `finally` return
  value replaces the value returned inside `try`/`except`) is
  modelled explicitly.
-/

namespace Tjpr

/-! ### Character-list string utilities (kernel-reducible) -/

/-- Does the first list start with the second one? -/
def listStarts : List Char → List Char → Bool
  | _, [] => true
  | [], _ :: _ => false
  | c :: cs, p :: ps => c = p && listStarts cs ps

/-- Does the second list contain the first one as a contiguous run? -/
def listHasInfix (p : List Char) : List Char → Bool
  | [] => p.isEmpty
  | c :: cs => listStarts (c :: cs) p || listHasInfix p cs

/-- Python `pat in s` (substring containment). -/
def containsStr (s pat : String) : Bool := listHasInfix pat.data s.data

/-- Python `s.startswith(pat)`. -/
def strStarts (s pat : String) : Bool := listStarts s.data pat.data

/-- Whitespace as recognised by Python `str.strip` (the characters that occur in practice). -/
def isWS (c : Char) : Bool := c = ' ' || c = '\t' || c = '\n' || c = '\r'

def trimList (l : List Char) : List Char :=
  ((l.dropWhile isWS).reverse.dropWhile isWS).reverse

/-- Python `s.strip()`. -/
def strTrim (s : String) : String := ⟨trimList s.data⟩

/-- One-pass model of `re.sub(r';jsessionid=[^?]*', '', src)`: the flag is
true while inside a match, skipping characters until a question mark. -/
def stripJsAux : Bool → List Char → List Char
  | _, [] => []
  | false, c :: cs =>
    if listStarts (c :: cs) (";jsessionid=".data) then stripJsAux true cs
    else c :: stripJsAux false cs
  | true, c :: cs => if c = '?' then c :: stripJsAux false cs else stripJsAux true cs

def stripJsessionid (s : String) : String := ⟨stripJsAux false s.data⟩

/-- Split on whitespace runs (used for the `class` attribute, which
BeautifulSoup treats as a whitespace-separated multi-valued attribute). -/
def wordsAux : List Char → List Char → List (List Char)
  | acc, [] => if acc.isEmpty then [] else [acc.reverse]
  | acc, c :: cs =>
    if isWS c then (if acc.isEmpty then wordsAux [] cs else acc.reverse :: wordsAux [] cs)
    else wordsAux (c :: acc) cs

/-! ### HTML documents -/

/-- A parsed HTML tree: text nodes (`NavigableString`) and element tags
with an attribute list and children, as produced by BeautifulSoup. -/
inductive Node where
  | text (s : String) : Node
  | elem (tag : String) (attrs : List (String × String)) (children : List Node) : Node

/-- Direct children (`tag.contents`). -/
def Node.children : Node → List Node
  | .text _ => []
  | .elem _ _ cs => cs

/-- Attribute lookup (`tag.get(key)`). -/
def Node.attr : Node → String → Option String
  | .text _, _ => none
  | .elem _ attrs _, k => attrs.lookup k

/-- Is this an element with the given tag name? -/
def Node.tagIs : Node → String → Bool
  | .text _, _ => false
  | .elem tag _ _, t => tag = t

/-- Does the node carry the given attribute with exactly the given value? -/
def Node.attrIs (n : Node) (k v : String) : Bool := n.attr k == some v

/-- BeautifulSoup class matching: the `class` attribute is split on
whitespace and the wanted class must be one of the words. -/
def Node.hasClass (n : Node) (c : String) : Bool :=
  match n.attr "class" with
  | some v => (wordsAux [] v.data).contains c.data
  | none => false

/-- All proper descendants in document (pre)order; `find_all`/`find`
search this list. -/
def Node.descendants : Node → List Node
  | .text _ => []
  | .elem _ _ cs => descList cs
where descList : List Node → List Node
  | [] => []
  | c :: cs => c :: (c.descendants ++ descList cs)

/-- `soup.find_all(pred)` — all descendants satisfying the predicate,
in document order. -/
def findAll (p : Node → Bool) (n : Node) : List Node := n.descendants.filter p

/-- `soup.find(pred)` — first descendant satisfying the predicate. -/
def findFirst (p : Node → Bool) (n : Node) : Option Node := (findAll p n).head?

/-- All descendant text-node contents in document order
(the strings traversed by `get_text` / `.strings`). -/
def Node.allTexts : Node → List String
  | .text s => [s]
  | .elem _ _ cs => textsList cs
where textsList : List Node → List String
  | [] => []
  | n :: ns => n.allTexts ++ textsList ns

/-- `tag.stripped_strings`: every descendant string stripped, empty ones skipped. -/
def strippedStrings (n : Node) : List String :=
  (n.allTexts.map strTrim).filter (fun s => s ≠ "")

/-- `tag.get_text(strip=True)` — the stripped strings joined with no separator. -/
def getTextStrip (n : Node) : String := String.join (strippedStrings n)

/-- `soup.text` / `tag.get_text()` — all descendant strings joined raw. -/
def allText (n : Node) : String := String.join n.allTexts

/-- `tag.string`: the single string child, looking through a single
element child; `none` when the tag has several children. -/
def scriptText : Node → Option String
  | .text s => some s
  | .elem _ _ [.text s] => some s
  | .elem _ _ [c] => scriptText c
  | .elem _ _ _ => none

/-- First direct child that is a text node —
`tag.find(text=True, recursive=False)`. -/
def firstDirectText (n : Node) : Option String :=
  n.children.findSome? (fun c => match c with | .text s => some s | _ => none)

/-! ### Data model (`src/models.py`) -/

/-- One row of the case's procedural history (`Movimentacao`). -/
structure Movimentacao where
  seq : String
  data : String
  evento : String
  movimentado_por : String
deriving Repr, DecidableEq

/-- The mutable telemetry record (`Telemetria`), threaded by reference
through every retry attempt. -/
structure Telemetria where
  tentativas : Nat
  captchas_resolvidos : Nat
  bytes_enviados : Nat
  tempo_total : Nat
deriving Repr, DecidableEq

/-- `telemetria.bytes_enviados += n`. -/
def addBytes (t : Telemetria) (n : Nat) : Telemetria :=
  { t with bytes_enviados := t.bytes_enviados + n }

/-! ### Movement parser (`extrair_movimentacoes`, consulta.py lines 32-57) -/

/-- The `td` cells of a row (`linha.find_all("td")`). -/
def tdCells (linha : Node) : List Node := findAll (fun n => n.tagIs "td") linha

/-- Line 47: `colunas[4].contents[2].strip() if len(colunas[4].contents) > 2 else ""`.
When `contents[2]` is a tag rather than a string, the Python expression
raises (`Tag` has no usable `strip`), which we model as `Except.error`. -/
def nomeFromContents (c4 : Node) : Except String String :=
  if c4.children.length > 2 then
    match c4.children.getD 2 (.text "") with
    | .text s => .ok (strTrim s)
    | .elem _ _ _ => .error "AttributeError: contents[2] is a Tag"
  else .ok ""

/-- The body of the row loop (lines 41-56): a row with at least five
cells yields one record; fewer cells yield nothing; a tag in third
position of cell 4's contents raises. -/
def processLinha (linha : Node) : Except String (Option Movimentacao) :=
  let colunas := tdCells linha
  if colunas.length ≥ 5 then
    let seq := getTextStrip (colunas.getD 1 (.text ""))
    let data := getTextStrip (colunas.getD 2 (.text ""))
    let evento := String.intercalate " " (strippedStrings (colunas.getD 3 (.text "")))
    let c4 := colunas.getD 4 (.text "")
    match nomeFromContents c4 with
    | .error e => .error e
    | .ok nome0 =>
      let cargo := match findFirst (fun n => n.tagIs "b") c4 with
        | some tag_b => getTextStrip tag_b
        | none => ""
      let nome := if nome0 = "" then
          (match firstDirectText c4 with | some s => strTrim s | none => "")
        else nome0
      let movimentado_por :=
        if nome ≠ "" ∧ cargo ≠ "" then nome ++ " - " ++ cargo
        else if nome ≠ "" then nome
        else if cargo ≠ "" then cargo
        else getTextStrip c4
      .ok (some { seq := seq, data := data, evento := evento, movimentado_por := movimentado_por })
  else .ok none

def processLinhas : List Node → Except String (List Movimentacao)
  | [] => .ok []
  | linha :: rest =>
    match processLinha linha with
    | .error e => .error e
    | .ok m? =>
      match processLinhas rest with
      | .error e => .error e
      | .ok ms => .ok (match m? with | some m => m :: ms | none => ms)

/-- Tables flagged with the portal's result-table marker
(`soup.find_all("table", {"class": "resultTable"})`). -/
def resultTables (soup : Node) : List Node :=
  findAll (fun n => n.tagIs "table" && n.hasClass "resultTable") soup

/-- The rows of one table past the header (`tabela.find_all("tr")[1:]`). -/
def dataRows (tabela : Node) : List Node :=
  (findAll (fun n => n.tagIs "tr") tabela).drop 1

def processTabelas : List Node → Except String (List Movimentacao)
  | [] => .ok []
  | tabela :: rest =>
    match processLinhas (dataRows tabela) with
    | .error e => .error e
    | .ok ms =>
      match processTabelas rest with
      | .error e => .error e
      | .ok ms2 => .ok (ms ++ ms2)

/-- `extrair_movimentacoes` (lines 32-57): collect one record per
qualifying row of every result-marked table, in document order. -/
def extrair_movimentacoes (soup : Node) : Except String (List Movimentacao) :=
  processTabelas (resultTables soup)

/-- `formatar_numero_processo` (lines 60-64): drop every non-digit character. -/
def formatar_numero_processo (numero_processo : String) : String :=
  ⟨numero_processo.data.filter Char.isDigit⟩

/-! ### Captcha resolver (`resolver_captcha`, lines 75-101) -/

/-- An HTTP response as seen by the code: its status, the UTF-8 byte
length of its text (what is added to `bytes_enviados`) and its parsed
HTML (`BeautifulSoup(resposta.text, "html.parser")`). -/
structure HttpResp where
  status : Nat
  bytes : Nat
  html : Node

/-- The outside world of one `resolver_captcha` call: the CAPTCHA image
download, the construction of the remote `Client` (line 84, a network
operation that can itself fail), the remote `predict` call and the local
`ddddocr` fallback. -/
structure CaptchaEnv where
  downloadStatus : Nat
  clientConstruct : Except String Unit
  predict : Except String String
  localOcr : Except String String

/-- `resolver_captcha`: non-200 download raises; the `Client(...)`
construction happens before the `try:` (line 84), so its failure
propagates directly; `captchas_resolvidos` is then incremented (line 85);
a `predict` failure falls back to the local engine; the API result is
stripped (line 90), the fallback result is returned raw (line 96). -/
def resolver_captcha (cenv : CaptchaEnv) (telemetria : Telemetria) :
    Telemetria × Except String String :=
  if cenv.downloadStatus ≠ 200 then
    (telemetria, .error "Falha ao baixar o CAPTCHA")
  else
    match cenv.clientConstruct with
    | .error e => (telemetria, .error e)
    | .ok _ =>
      let t := { telemetria with captchas_resolvidos := telemetria.captchas_resolvidos + 1 }
      match cenv.predict with
      | .ok s => (t, .ok (strTrim s))
      | .error _ =>
        match cenv.localOcr with
        | .ok s => (t, .ok s)
        | .error e => (t, .error e)

/-! ### Token extractor (`extrair_url_token`, lines 104-114) -/

/-- `"_tj=" in token`. -/
def hasTj (token : String) : Bool := containsStr token "_tj="

/-- `extrair_url_token`: scan the scripts in document order; the first
script whose (truthy) string matches the pattern *and* whose captured
group contains the session marker `"_tj="` wins; otherwise `None`.
The regex is abstracted as a first-match single-capture function. -/
def extrair_url_token (script_tags : List Node) (pat : String → Option String) :
    Option String :=
  match script_tags with
  | [] => none
  | script :: rest =>
    match scriptText script with
    | some s =>
      if s ≠ "" then
        match pat s with
        | some token => if hasTj token then some token else extrair_url_token rest pat
        | none => extrair_url_token rest pat
      else extrair_url_token rest pat
    | none => extrair_url_token rest pat

/-- The form-discovery loop (lines 224-231): first script with a truthy
string matched by the `buscaProcessoForm` action regex; no `"_tj="`
filter here, unlike `extrair_url_token`. -/
def findFormAction (script_tags : List Node) (pat : String → Option String) :
    Option String :=
  match script_tags with
  | [] => none
  | script :: rest =>
    match scriptText script with
    | some s =>
      if s ≠ "" then
        match pat s with
        | some rel => some rel
        | none => findFormAction rest pat
      else findFormAction rest pat
    | none => findFormAction rest pat

/-! ### Session orchestrator (the `try:` body of `fetch`, lines 146-308) -/

def BASE_URL : String := "https://consulta.tjpr.jus.br"

/-- `url if url.startswith("http") else f"{BASE_URL}{url}"` (lines 193, 202, 230, 275). -/
def resolveUrl (url : String) : String :=
  if strStarts url "http" then url else BASE_URL ++ url

/-- The four regexes of the workflow, each abstracted as the function
returning the first match's capture group. -/
structure Patterns where
  select : String → Option String
  autocomplete : String → Option String
  htmlContent : String → Option String
  formAction : String → Option String

/-- Responses the portal gives to the successive requests of one attempt. -/
structure OrchEnv where
  respInicial : HttpResp
  respCabecalho : HttpResp
  respConsulta : HttpResp
  respSelect : HttpResp
  respAutocomplete : HttpResp
  captcha : CaptchaEnv
  respForm : HttpResp
  respResults1 : HttpResp
  respResults2 : HttpResp

/-- One HTTP request issued by the orchestrator, with the form payload
for POSTs. -/
inductive Request where
  | get (url : String)
  | post (url : String) (payload : List (String × String))
deriving Repr, DecidableEq

/-- `payload_segundo_ajax` (lines 204-209). -/
def payload_segundo_ajax (numero_processo : String) : List (String × String) :=
  [("numeroProcesso", numero_processo),
   ("flagNumeroUnico", "true"),
   ("opcaoConsulta", "1"),
   ("_", "")]

/-- `payload_form` (lines 243-263). -/
def payload_form (numero_processo resultado_ocr : String) : List (String × String) :=
  [("processoPageSize", "20"),
   ("processoPageNumber", "1"),
   ("processoSortColumn", "p.numeroUnico"),
   ("processoSortOrder", "asc"),
   ("codVaraEscolhida", ""),
   ("opcaoConsultaPublica", "1"),
   ("flagNumeroUnico", "true"),
   ("numeroProcesso", numero_processo),
   ("codComarca", "-1"),
   ("tipoCompetencia", ""),
   ("turma", ""),
   ("nomeParte", ""),
   ("cpfCnpj", ""),
   ("loginAdvogado", ""),
   ("nomeAdvogado", ""),
   ("oab", ""),
   ("oabComplemento", "N"),
   ("oabUF", "PR"),
   ("answer", resultado_ocr)]

/-- `payload_ultimo` (line 276). -/
def payload_ultimo : List (String × String) := [("dummy", "true"), ("_", "")]

/-- The `<frame id="mainFrame">` src, required truthy (lines 156-158). -/
def mainFrameSrc (soup : Node) : Option String :=
  match (findFirst (fun n => n.tagIs "frame" && n.attrIs "id" "mainFrame") soup) with
  | some frame => match frame.attr "src" with
    | some s => if s ≠ "" then some s else none
    | none => none
  | none => none

/-- The `<img id="captchaImage">` src, required truthy (lines 180-182). -/
def captchaImgSrc (soup : Node) : Option String :=
  match (findFirst (fun n => n.tagIs "img" && n.attrIs "id" "captchaImage") soup) with
  | some img => match img.attr "src" with
    | some s => if s ≠ "" then some s else none
    | none => none
  | none => none

/-- `soup.find_all("script", {"type": "text/javascript"})`. -/
def scriptsJs (soup : Node) : List Node :=
  findAll (fun n => n.tagIs "script" && n.attrIs "type" "text/javascript") soup

/-- Reparsing `str(soup_1) + str(soup_2)` (lines 294-295): a document
whose children are both fragments' children in order. -/
def combineSoups (a b : Node) : Node := .elem "[document]" [] (a.children ++ b.children)

/-- The portal's "older movements" marker (line 284). -/
def MARKER_MAIS_ANTIGAS : String := "Clique para visualizar as movimentações mais antigas"

/-- Step 10 (lines 283-299): if the first results fragment mentions the
older-movements marker, extract a second `HtmlContent` token from the
same fragment and POST again — note the unconditional `BASE_URL`
concatenation (line 288) and the silent fallback to the single fragment
when the token is absent (lines 296-297). -/
def etapaPaginacao (pats : Patterns) (env : OrchEnv) (soup_1 : Node)
    (t : Telemetria) (log : List Request) : Telemetria × List Request × Except String Node :=
  if containsStr (allText soup_1) MARKER_MAIS_ANTIGAS then
    match extrair_url_token (scriptsJs soup_1) pats.htmlContent with
    | some url_desejada =>
      let full_url := BASE_URL ++ url_desejada
      let resp_final := env.respResults2
      let t9 := addBytes t resp_final.bytes
      let log9 := log ++ [Request.post full_url payload_ultimo]
      if resp_final.status ≠ 200 then (t9, log9, .error "Falha ao acessar a URL final")
      else (t9, log9, .ok (combineSoups soup_1 resp_final.html))
    | none => (t, log, .ok soup_1)
  else (t, log, .ok soup_1)

/-- Step 9 (lines 269-282): extract the `HtmlContent` token from the
form-submission response and POST the dummy payload for the first
results fragment. -/
def etapaResultados (pats : Patterns) (env : OrchEnv) (soup_final : Node)
    (t : Telemetria) (log : List Request) : Telemetria × List Request × Except String Node :=
  match extrair_url_token (scriptsJs soup_final) pats.htmlContent with
  | none => (t, log, .error "Token/URL da chamada AjaxJspTag.HtmlContent não encontrado")
  | some token_ajax =>
    let final_url_ajax := resolveUrl token_ajax
    let ultimo_post := env.respResults1
    let t8 := addBytes t ultimo_post.bytes
    let log8 := log ++ [Request.post final_url_ajax payload_ultimo]
    if ultimo_post.status ≠ 200 then (t8, log8, .error "Falha ao acessar a URL final")
    else etapaPaginacao pats env ultimo_post.html t8 log8

/-- Steps 7-8 (lines 222-267): scan all scripts of the consultation page
for the `buscaProcessoForm` action, resolve it and POST the full search
form. -/
def etapaFormulario (pats : Patterns) (env : OrchEnv) (numero_processo resultado_ocr : String)
    (soup_consulta : Node) (t : Telemetria) (log : List Request) :
    Telemetria × List Request × Except String Node :=
  let script_tags_full := findAll (fun n => n.tagIs "script") soup_consulta
  match findFormAction script_tags_full pats.formAction with
  | none => (t, log, .error "URL de submissão do formulário não encontrada")
  | some relative_url =>
    let token_url := resolveUrl relative_url
    let resposta_formulario := env.respForm
    let t7 := addBytes t resposta_formulario.bytes
    let log7 := log ++ [Request.post token_url (payload_form numero_processo resultado_ocr)]
    if resposta_formulario.status ≠ 200 then (t7, log7, .error "Falha ao submeter o formulário")
    else etapaResultados pats env resposta_formulario.html t7 log7

/-- Step 6 (line 220): resolve the CAPTCHA; a failure propagates. -/
def etapaCaptcha (pats : Patterns) (env : OrchEnv) (numero_processo : String)
    (soup_consulta : Node) (url_captcha : String) (t : Telemetria) (log : List Request) :
    Telemetria × List Request × Except String Node :=
  let capRes := resolver_captcha env.captcha t
  let t6 := capRes.1
  let log6 := log ++ [Request.get url_captcha]
  match capRes.2 with
  | .error e => (t6, log6, .error e)
  | .ok resultado_ocr => etapaFormulario pats env numero_processo resultado_ocr soup_consulta t6 log6

/-- Step 5 (lines 199-217): extract the autocomplete endpoint from the
same consultation-page scripts and POST the case number. -/
def etapaAutocomplete (pats : Patterns) (env : OrchEnv) (numero_processo : String)
    (soup_consulta : Node) (url_captcha : String) (script_tags : List Node)
    (t : Telemetria) (log : List Request) : Telemetria × List Request × Except String Node :=
  match extrair_url_token script_tags pats.autocomplete with
  | none => (t, log, .error "URL do Autocomplete com _tj= não encontrada no HTML")
  | some url_autocomplete =>
    let segunda_url_ajax := resolveUrl url_autocomplete
    let resposta_ajax := env.respAutocomplete
    let t5 := addBytes t resposta_ajax.bytes
    let log5 := log ++ [Request.post segunda_url_ajax (payload_segundo_ajax numero_processo)]
    if resposta_ajax.status ≠ 200 then (t5, log5, .error "Falha ao acessar a URL AJAX de autocomplete")
    else etapaCaptcha pats env numero_processo soup_consulta url_captcha t5 log5

/-- Step 4 (lines 186-197): extract the `Select` endpoint, append the
default-comarca parameter when missing, resolve and GET it. -/
def etapaSelect (pats : Patterns) (env : OrchEnv) (numero_processo : String)
    (soup_consulta : Node) (url_captcha : String) (t : Telemetria) (log : List Request) :
    Telemetria × List Request × Except String Node :=
  let script_tags := scriptsJs soup_consulta
  match extrair_url_token script_tags pats.select with
  | none => (t, log, .error "URL com _tj= não encontrada no HTML")
  | some url_ajax0 =>
    let url_ajax := if !containsStr url_ajax0 "codComarca" then
        url_ajax0 ++ (if containsStr url_ajax0 "?" then "&" else "?") ++ "codComarca=-1"
      else url_ajax0
    let url_final_ajax := resolveUrl url_ajax
    let resp_ajax := env.respSelect
    let t4 := addBytes t resp_ajax.bytes
    let log4 := log ++ [Request.get url_final_ajax]
    if resp_ajax.status ≠ 200 then (t4, log4, .error "Falha ao acessar a URL AJAX")
    else etapaAutocomplete pats env numero_processo soup_consulta url_captcha script_tags t4 log4

/-- Step 3 (lines 172-184): GET the working page, require the CAPTCHA
image to be present with a truthy `src`. -/
def etapaConsulta (pats : Patterns) (env : OrchEnv) (numero_processo : String)
    (url_final : String) (t : Telemetria) (log : List Request) :
    Telemetria × List Request × Except String Node :=
  let resposta_consulta := env.respConsulta
  let t3 := addBytes t resposta_consulta.bytes
  let log3 := log ++ [Request.get url_final]
  if resposta_consulta.status ≠ 200 then (t3, log3, .error "Falha ao acessar a página de consulta")
  else
    let soup_consulta := resposta_consulta.html
    match captchaImgSrc soup_consulta with
    | none => (t3, log3, .error "Imagem do CAPTCHA não encontrada ou sem atributo src")
    | some capSrc => etapaSelect pats env numero_processo soup_consulta (BASE_URL ++ capSrc) t3 log3

/-- Step 2 (lines 163-170): GET `cabecalho.jsp`, consumed only for
telemetry. -/
def etapaCabecalho (pats : Patterns) (env : OrchEnv) (numero_processo : String)
    (url_final : String) (t : Telemetria) (log : List Request) :
    Telemetria × List Request × Except String Node :=
  let url_cabecalho := BASE_URL ++ "/projudi_consulta/cabecalho.jsp"
  let resposta_cabecalho := env.respCabecalho
  let t2 := addBytes t resposta_cabecalho.bytes
  let log2 := log ++ [Request.get url_cabecalho]
  if resposta_cabecalho.status ≠ 200 then (t2, log2, .error "Falha ao acessar cabecalho.jsp")
  else etapaConsulta pats env numero_processo url_final t2 log2

/-- The `try:` body of `fetch` (lines 146-299), up to the combined
results soup: step 1 (landing page and `mainFrame` discovery) followed by
the remaining steps.  Returns the telemetry as mutated so far, the
request log, and either the combined soup or the first raised failure.
Every response body's byte count is added to the telemetry before its
status is checked, exactly as in the code. -/
def orchestrate (pats : Patterns) (env : OrchEnv) (numero_processo : String)
    (t0 : Telemetria) : Telemetria × List Request × Except String Node :=
  let url_pagina_consulta := BASE_URL ++ "/projudi_consulta/"
  let resposta_inicial := env.respInicial
  let t1 := addBytes t0 resposta_inicial.bytes
  let log1 := [Request.get url_pagina_consulta]
  if resposta_inicial.status ≠ 200 then
    (t1, log1, .error "Falha ao acessar a página inicial")
  else
    match mainFrameSrc resposta_inicial.html with
    | none => (t1, log1, .error "Frame com id=mainFrame não encontrado ou sem atributo src")
    | some src0 =>
      let src := stripJsessionid src0
      let url_final := BASE_URL ++ src
      etapaCabecalho pats env numero_processo url_final t1 log1

/-! ### Retry controller (`fetch`, lines 117-326)

The `try:` body never writes `telemetria.tentativas` — only
`bytes_enviados` (at each response) and `captchas_resolvidos` (inside
`resolver_captcha`).  The two lemmas below record this; the second is
needed to justify termination of `fetch`'s recursion. -/

theorem resolver_captcha_tentativas (cenv : CaptchaEnv) (t : Telemetria) :
    (resolver_captcha cenv t).1.tentativas = t.tentativas := by
  obtain ⟨ds, cc, pr, lo⟩ := cenv
  unfold resolver_captcha
  dsimp only
  split
  · rfl
  · cases cc with
    | error e => rfl
    | ok u =>
      cases pr with
      | ok s => rfl
      | error e =>
        cases lo with
        | ok s => rfl
        | error e => rfl

theorem etapaPaginacao_tentativas (pats : Patterns) (env : OrchEnv) (soup_1 : Node)
    (t : Telemetria) (log : List Request) :
    (etapaPaginacao pats env soup_1 t log).1.tentativas = t.tentativas := by
  unfold etapaPaginacao
  dsimp only
  repeat' split
  all_goals rfl

theorem etapaResultados_tentativas (pats : Patterns) (env : OrchEnv) (soup_final : Node)
    (t : Telemetria) (log : List Request) :
    (etapaResultados pats env soup_final t log).1.tentativas = t.tentativas := by
  unfold etapaResultados
  dsimp only
  repeat' split
  all_goals first
  | rfl
  | exact etapaPaginacao_tentativas ..

theorem etapaFormulario_tentativas (pats : Patterns) (env : OrchEnv)
    (numero_processo resultado_ocr : String) (soup_consulta : Node)
    (t : Telemetria) (log : List Request) :
    (etapaFormulario pats env numero_processo resultado_ocr soup_consulta t log).1.tentativas
      = t.tentativas := by
  unfold etapaFormulario
  dsimp only
  repeat' split
  all_goals first
  | rfl
  | exact etapaResultados_tentativas ..

theorem etapaCaptcha_tentativas (pats : Patterns) (env : OrchEnv) (numero_processo : String)
    (soup_consulta : Node) (url_captcha : String) (t : Telemetria) (log : List Request) :
    (etapaCaptcha pats env numero_processo soup_consulta url_captcha t log).1.tentativas
      = t.tentativas := by
  unfold etapaCaptcha
  dsimp only
  have hcap := resolver_captcha_tentativas env.captcha t
  repeat' split
  all_goals first
  | exact hcap
  | exact (etapaFormulario_tentativas ..).trans hcap

theorem etapaAutocomplete_tentativas (pats : Patterns) (env : OrchEnv)
    (numero_processo : String) (soup_consulta : Node) (url_captcha : String)
    (script_tags : List Node) (t : Telemetria) (log : List Request) :
    (etapaAutocomplete pats env numero_processo soup_consulta url_captcha script_tags t log).1.tentativas
      = t.tentativas := by
  unfold etapaAutocomplete
  dsimp only
  repeat' split
  all_goals first
  | rfl
  | exact etapaCaptcha_tentativas ..

theorem etapaSelect_tentativas (pats : Patterns) (env : OrchEnv) (numero_processo : String)
    (soup_consulta : Node) (url_captcha : String) (t : Telemetria) (log : List Request) :
    (etapaSelect pats env numero_processo soup_consulta url_captcha t log).1.tentativas
      = t.tentativas := by
  unfold etapaSelect
  dsimp only
  repeat' split
  all_goals first
  | rfl
  | exact etapaAutocomplete_tentativas ..

theorem etapaConsulta_tentativas (pats : Patterns) (env : OrchEnv) (numero_processo : String)
    (url_final : String) (t : Telemetria) (log : List Request) :
    (etapaConsulta pats env numero_processo url_final t log).1.tentativas = t.tentativas := by
  unfold etapaConsulta
  dsimp only
  repeat' split
  all_goals first
  | rfl
  | exact etapaSelect_tentativas ..

theorem etapaCabecalho_tentativas (pats : Patterns) (env : OrchEnv) (numero_processo : String)
    (url_final : String) (t : Telemetria) (log : List Request) :
    (etapaCabecalho pats env numero_processo url_final t log).1.tentativas = t.tentativas := by
  unfold etapaCabecalho
  dsimp only
  repeat' split
  all_goals first
  | rfl
  | exact etapaConsulta_tentativas ..

theorem orchestrate_tentativas (pats : Patterns) (env : OrchEnv)
    (numero_processo : String) (t0 : Telemetria) :
    (orchestrate pats env numero_processo t0).1.tentativas = t0.tentativas := by
  unfold orchestrate
  dsimp only
  repeat' split
  all_goals first
  | rfl
  | exact etapaCabecalho_tentativas ..

/-- The per-attempt environment: the portal's responses plus the wall
time the attempt consumes. -/
structure AttemptEnv where
  orch : OrchEnv
  dur : Nat

/-- One pass through the whole `try:` block: orchestration followed by
`extrair_movimentacoes` (line 301), still inside the exception scope. -/
def runAttempt (pats : Patterns) (env : AttemptEnv) (numero_processo : String)
    (t : Telemetria) : Telemetria × Except String (List Movimentacao) :=
  match orchestrate pats env.orch numero_processo t with
  | (t1, _log, .error e) => (t1, .error e)
  | (t1, _log, .ok soup_combinado) => (t1, extrair_movimentacoes soup_combinado)

theorem runAttempt_tentativas (pats : Patterns) (env : AttemptEnv)
    (numero_processo : String) (t : Telemetria) :
    (runAttempt pats env numero_processo t).1.tentativas = t.tentativas := by
  unfold runAttempt
  have horch := orchestrate_tentativas pats env.orch numero_processo t
  repeat' split <;> simp_all

/-- What `fetch` hands back to its caller: either a bare `JSONResponse`
(the two early returns, whose content has only `code` and `message`), or
one of the dictionaries that flow through the `finally:` block — the
success dictionary (lines 302-308), the retry-exhausted failure
dictionary (lines 317-321), or the dictionary that reaches the caller on
the mid-retry path: `results` is still the empty dict `{}` when the
`finally:` block's `return results` (line 326) overrides the
`return await fetch(...)` of the `except:` block, so only the telemetry
added at line 325 is present. -/
inductive FetchResult where
  | jsonError (httpStatus code : Nat) (message : String)
  | success (code : Nat) (message : String) (datetime : Nat)
      (results : List Movimentacao) (telemetria : Telemetria)
  | failure (code : Nat) (message : String) (telemetria : Telemetria)
  | telemetriaOnly (telemetria : Telemetria)
deriving Repr, DecidableEq

/-- The telemetry record carried by a returned payload, if any. -/
def FetchResult.payloadTelemetria : FetchResult → Option Telemetria
  | .jsonError _ _ _ => none
  | .success _ _ _ _ t => some t
  | .failure _ _ t => some t
  | .telemetriaOnly t => some t

/-- `fetch` (lines 117-326).  `R` is `TENTATIVAS_MAXIMAS_RECURSIVAS`,
`C` is `TENTATIVAS_MAXIMAS_CAPTCHA`; `envs` gives the attempt that runs
when the telemetry's counter has a given value; `clock` is the wall
clock at entry (`inicio_tempo = time.time()`).  Returns the final state
of the shared telemetry record, the payload the call hands back, and the
wall clock at exit.

The `finally:` block (lines 322-326) recomputes `tempo_total` against
this frame's `inicio_tempo` and *returns* `results`, so on the
exception-retry path the recursive call's return value is discarded and
the caller receives the local `results` dict (`{}` plus telemetry). -/
def fetch (R C : Nat) (pats : Patterns) (envs : Nat → AttemptEnv)
    (numero_processo : String) (telemetria : Telemetria) (clock : Nat) :
    Telemetria × FetchResult × Nat :=
  let inicio_tempo := clock
  if numero_processo = "" then
    ({ telemetria with tempo_total := clock - inicio_tempo },
     .jsonError 422 2 "ERRO_ENTIDADE_NAO_PROCESSAVEL", clock)
  else if telemetria.tentativas ≥ R then
    (telemetria, .jsonError 500 3 "ERRO_SERVIDOR_INTERNO", clock)
  else
    let env := envs telemetria.tentativas
    let clock1 := clock + env.dur
    let ra := runAttempt pats env numero_processo telemetria
    let t1 := ra.1
    match ra.2 with
    | .ok movimentacoes =>
      -- success: results = {code, message, datetime, results, telemetria};
      -- finally recomputes tempo_total and returns results
      let tf := { t1 with tempo_total := clock1 - inicio_tempo }
      (tf, .success 200 "SUCESSO" clock1 movimentacoes tf, clock1)
    | .error _e =>
      if t1.tentativas < C then
        -- except: telemetria.tentativas += 1; return await fetch(...)
        -- ... but finally's `return results` replaces that value
        let t2 := { t1 with tentativas := t1.tentativas + 1 }
        let rec_call := fetch R C pats envs numero_processo t2 clock1
        let t3 := rec_call.1
        let clock2 := rec_call.2.2
        let tf := { t3 with tempo_total := clock2 - inicio_tempo }
        (tf, .telemetriaOnly tf, clock2)
      else
        -- captcha budget exhausted: results = {code 4, message, telemetria}
        let tf := { t1 with tempo_total := clock1 - inicio_tempo }
        (tf, .failure 4 "ERRO_SERVIDOR_INTERNO" tf, clock1)
termination_by min R C - telemetria.tentativas
decreasing_by
  have h := runAttempt_tentativas pats (envs telemetria.tentativas) numero_processo telemetria
  have hC : (runAttempt pats (envs telemetria.tentativas) numero_processo telemetria).1.tentativas < C := by
    assumption
  omega

/-! ### Exit-path equations for `fetch` -/

/-- Invalid input (lines 123-128): immediate 422 `JSONResponse`;
`tempo_total` is recomputed (line 124) but the payload has no telemetry. -/
theorem fetch_invalid (R C : Nat) (pats : Patterns) (envs : Nat → AttemptEnv)
    (t : Telemetria) (clock : Nat) :
    fetch R C pats envs "" t clock =
      ({ t with tempo_total := 0 }, .jsonError 422 2 "ERRO_ENTIDADE_NAO_PROCESSAVEL", clock) := by
  unfold fetch
  simp

/-- Recursion budget exhausted (lines 130-135): immediate 500
`JSONResponse`; the telemetry record is left untouched. -/
theorem fetch_budget (R C : Nat) (pats : Patterns) (envs : Nat → AttemptEnv)
    (numero_processo : String) (t : Telemetria) (clock : Nat)
    (h1 : numero_processo ≠ "") (h2 : R ≤ t.tentativas) :
    fetch R C pats envs numero_processo t clock =
      (t, .jsonError 500 3 "ERRO_SERVIDOR_INTERNO", clock) := by
  unfold fetch
  rw [if_neg h1, if_pos h2]

/-- Successful attempt (lines 301-308 and the `finally:`): the success
dictionary carries the telemetry, with `tempo_total` recomputed against
this frame's start. -/
theorem fetch_ok (R C : Nat) (pats : Patterns) (envs : Nat → AttemptEnv)
    (numero_processo : String) (t t1 : Telemetria) (clock : Nat)
    (movs : List Movimentacao)
    (h1 : numero_processo ≠ "") (h2 : t.tentativas < R)
    (h3 : runAttempt pats (envs t.tentativas) numero_processo t = (t1, .ok movs)) :
    fetch R C pats envs numero_processo t clock =
      ({ t1 with tempo_total := (envs t.tentativas).dur },
       .success 200 "SUCESSO" (clock + (envs t.tentativas).dur) movs
         { t1 with tempo_total := (envs t.tentativas).dur },
       clock + (envs t.tentativas).dur) := by
  unfold fetch
  rw [if_neg h1, if_neg (by omega : ¬ t.tentativas ≥ R)]
  simp only [h3]
  simp

/-- Failed attempt with the CAPTCHA budget left (lines 310-315 and the
`finally:`): `tentativas` is incremented and `fetch` recurses, but the
`finally:` block's `return results` discards the recursive value — the
caller receives the `{}` dictionary augmented with the telemetry. -/
theorem fetch_retry (R C : Nat) (pats : Patterns) (envs : Nat → AttemptEnv)
    (numero_processo : String) (t t1 : Telemetria) (clock : Nat) (msg : String)
    (h1 : numero_processo ≠ "") (h2 : t.tentativas < R)
    (h3 : runAttempt pats (envs t.tentativas) numero_processo t = (t1, .error msg))
    (h4 : t1.tentativas < C) :
    fetch R C pats envs numero_processo t clock =
      (let r := fetch R C pats envs numero_processo
          { t1 with tentativas := t1.tentativas + 1 } (clock + (envs t.tentativas).dur)
       ({ r.1 with tempo_total := r.2.2 - clock },
        .telemetriaOnly { r.1 with tempo_total := r.2.2 - clock },
        r.2.2)) := by
  conv_lhs => unfold fetch
  rw [if_neg h1, if_neg (by omega : ¬ t.tentativas ≥ R)]
  simp only [h3]
  rw [if_pos h4]

/-- Failed attempt with the CAPTCHA budget exhausted (lines 316-321 and
the `finally:`): the failure dictionary carries the telemetry. -/
theorem fetch_exhaust (R C : Nat) (pats : Patterns) (envs : Nat → AttemptEnv)
    (numero_processo : String) (t t1 : Telemetria) (clock : Nat) (msg : String)
    (h1 : numero_processo ≠ "") (h2 : t.tentativas < R)
    (h3 : runAttempt pats (envs t.tentativas) numero_processo t = (t1, .error msg))
    (h4 : C ≤ t1.tentativas) :
    fetch R C pats envs numero_processo t clock =
      ({ t1 with tempo_total := (envs t.tentativas).dur },
       .failure 4 "ERRO_SERVIDOR_INTERNO" { t1 with tempo_total := (envs t.tentativas).dur },
       clock + (envs t.tentativas).dur) := by
  unfold fetch
  rw [if_neg h1, if_neg (by omega : ¬ t.tentativas ≥ R)]
  simp only [h3]
  rw [if_neg (by omega : ¬ t1.tentativas < C)]
  simp

/-! ### Concrete test fixtures

Portal environments small enough for the kernel to evaluate, used by the
closed evaluation theorems below.  The abstract regex patterns are
instantiated by prefix-triggered capture functions: a script whose body
is the trigger word yields the configured token. -/

def docEmpty : Node := .elem "[document]" [] []

def scriptNode (s : String) : Node := .elem "script" [("type", "text/javascript")] [.text s]

def plainScript (s : String) : Node := .elem "script" [] [.text s]

def tdN (cs : List Node) : Node := .elem "td" [] cs

def trN (cs : List Node) : Node := .elem "tr" [] cs

def resultTableN (rows : List Node) : Node := .elem "table" [("class", "resultTable")] rows

def okResp (html : Node) : HttpResp := { status := 200, bytes := 0, html := html }

def errResp : HttpResp := { status := 500, bytes := 0, html := docEmpty }

/-- A CAPTCHA environment whose remote call fails and whose local
fallback answers `"OCR"`. -/
def okCaptcha : CaptchaEnv :=
  { downloadStatus := 200, clientConstruct := .ok (), predict := .error "api fora do ar",
    localOcr := .ok "OCR" }

/-- Landing page: a `mainFrame` whose src carries a session id. -/
def inicialHtml : Node :=
  .elem "[document]" []
    [.elem "frame" [("id", "mainFrame"), ("src", "/consulta.jsp;jsessionid=ABC?x=1")] []]

/-- Consultation page: CAPTCHA image plus the scripts carrying the
select, autocomplete and form-action tokens. -/
def consultaHtml : Node :=
  .elem "[document]" []
    [.elem "img" [("id", "captchaImage"), ("src", "/captcha.png")] [],
     scriptNode "SEL", scriptNode "AUTO", plainScript "FORM"]

/-- Form-submission response: the script carrying the first
`HtmlContent` token. -/
def formHtml : Node := .elem "[document]" [] [scriptNode "HTML1"]

/-- Patterns triggered by the fixture script bodies, capturing the given
tokens. -/
def fixPats (tokS tokA tokH1 tokD tokF : String) : Patterns :=
  { select := fun s => if s = "SEL" then some tokS else none
    autocomplete := fun s => if s = "AUTO" then some tokA else none
    htmlContent := fun s => if s = "HTML1" then some tokH1 else
      if s = "HTML2" then some tokD else none
    formAction := fun s => if s = "FORM" then some tokF else none }

/-- Default fixture tokens (all site-relative, all carrying `_tj=`). -/
def cPats : Patterns := fixPats "/sel?_tj=1" "/auto?_tj=1" "/res1?_tj=1" "/res2?_tj=1" "/form"

/-- A portal that answers every step, with the given two result pages. -/
def successEnv (res1 res2 : Node) : OrchEnv :=
  { respInicial := okResp inicialHtml
    respCabecalho := okResp docEmpty
    respConsulta := okResp consultaHtml
    respSelect := okResp docEmpty
    respAutocomplete := okResp docEmpty
    captcha := okCaptcha
    respForm := okResp formHtml
    respResults1 := okResp res1
    respResults2 := okResp res2 }

/-- A portal whose landing page is down. -/
def failEnv : OrchEnv :=
  { respInicial := errResp, respCabecalho := errResp, respConsulta := errResp
    respSelect := errResp, respAutocomplete := errResp, captcha := okCaptcha
    respForm := errResp, respResults1 := errResp, respResults2 := errResp }

def failEnvs : Nat → AttemptEnv := fun _ => { orch := failEnv, dur := 0 }

def successEnvs (res1 res2 : Node) : Nat → AttemptEnv :=
  fun _ => { orch := successEnv res1 res2, dur := 0 }

/-! ### C1 — the mid-retry return value -/

/-- C1: the claim says that when the orchestrator raises while
`tentativas` is below the CAPTCHA bound, the counter is incremented and
the value returned to the caller equals the value of the recursive
`fetch` invocation, so the caller always sees a `code`/`message` pair.
The first conjunct evaluates `fetch` at such an input (`R = 30`,
`C = 1`, counter starting at `0`, every attempt failing): the counter is
indeed incremented to `1`, but the caller receives the bare
`{"telemetria": ...}` dictionary — the `finally:` block's
`return results` (line 326) discards the recursive call's value.  The
second conjunct evaluates the recursive invocation itself, which
returned a proper `code`/`message` failure dictionary that was thrown
away. -/
theorem c1_finally_discards_recursive_return :
    fetch 30 1 cPats failEnvs "123" ⟨0, 0, 0, 0⟩ 0 =
      (⟨1, 0, 0, 0⟩, .telemetriaOnly ⟨1, 0, 0, 0⟩, 0) ∧
    fetch 30 1 cPats failEnvs "123" ⟨1, 0, 0, 0⟩ 0 =
      (⟨1, 0, 0, 0⟩, .failure 4 "ERRO_SERVIDOR_INTERNO" ⟨1, 0, 0, 0⟩, 0) := by
  have h3a : runAttempt cPats (failEnvs 0) "123" ⟨0, 0, 0, 0⟩ =
      (⟨0, 0, 0, 0⟩, .error "Falha ao acessar a página inicial") := by rfl
  have h3b : runAttempt cPats (failEnvs 1) "123" ⟨1, 0, 0, 0⟩ =
      (⟨1, 0, 0, 0⟩, .error "Falha ao acessar a página inicial") := by rfl
  have hInner : fetch 30 1 cPats failEnvs "123" ⟨1, 0, 0, 0⟩ 0 =
      (⟨1, 0, 0, 0⟩, .failure 4 "ERRO_SERVIDOR_INTERNO" ⟨1, 0, 0, 0⟩, 0) := by
    rw [fetch_exhaust 30 1 cPats failEnvs "123" ⟨1, 0, 0, 0⟩ ⟨1, 0, 0, 0⟩ 0
      "Falha ao acessar a página inicial" (by decide) (by decide) h3b (by decide)]
    rfl
  refine ⟨?_, hInner⟩
  have hInner2 : fetch 30 1 cPats failEnvs "123"
      { (⟨0, 0, 0, 0⟩ : Telemetria) with
          tentativas := (⟨0, 0, 0, 0⟩ : Telemetria).tentativas + 1 }
      (0 + (failEnvs (⟨0, 0, 0, 0⟩ : Telemetria).tentativas).dur) =
      (⟨1, 0, 0, 0⟩, .failure 4 "ERRO_SERVIDOR_INTERNO" ⟨1, 0, 0, 0⟩, 0) := hInner
  rw [fetch_retry 30 1 cPats failEnvs "123" ⟨0, 0, 0, 0⟩ ⟨0, 0, 0, 0⟩ 0
    "Falha ao acessar a página inicial" (by decide) (by decide) h3a (by decide)]
  dsimp only
  rw [hInner2]
  rfl

/-! ### C2 — which exit paths carry the telemetry -/

/-- C2 counterexample: the invalid-input exit (lines 125-128) and the
recursion-budget exit (lines 132-135) return `JSONResponse` payloads
with no telemetry record, and the budget exit does not recompute
`tempo_total` either (it stays at its incoming value `7`) — refuting the
claim that every exit path carries the telemetry with a recomputed
`tempo_total`. -/
theorem c2_early_exits_drop_telemetria :
    (fetch 30 30 cPats failEnvs "" ⟨0, 0, 0, 0⟩ 5).2.1.payloadTelemetria = none ∧
    (fetch 30 30 cPats failEnvs "123" ⟨30, 0, 0, 7⟩ 5).2.1.payloadTelemetria = none ∧
    (fetch 30 30 cPats failEnvs "123" ⟨30, 0, 0, 7⟩ 5).1.tempo_total = 7 := by
  refine ⟨?_, ?_, ?_⟩
  · rw [fetch_invalid]
    rfl
  · rw [fetch_budget 30 30 cPats failEnvs "123" ⟨30, 0, 0, 7⟩ 5 (by decide) (by decide)]
    rfl
  · rw [fetch_budget 30 30 cPats failEnvs "123" ⟨30, 0, 0, 7⟩ 5 (by decide) (by decide)]

/-- C2 amended: only the exits that flow through the `try`/`finally`
(success, captcha-budget failure, and the mid-retry dictionary) carry
the telemetry record, and on those the record's `tempo_total` equals the
frame's exit clock minus its entry clock; the invalid-input exit
recomputes `tempo_total` on the shared record (to `0`) but returns a
payload without it, and the recursion-budget exit neither recomputes nor
carries it. -/
theorem c2_amended_telemetria_paths (R C : Nat) (pats : Patterns) (envs : Nat → AttemptEnv)
    (numero_processo : String) (t : Telemetria) (clock : Nat) :
    (numero_processo = "" →
      (fetch R C pats envs numero_processo t clock).2.1.payloadTelemetria = none ∧
      (fetch R C pats envs numero_processo t clock).1.tempo_total = 0) ∧
    (numero_processo ≠ "" → R ≤ t.tentativas →
      (fetch R C pats envs numero_processo t clock).2.1.payloadTelemetria = none ∧
      (fetch R C pats envs numero_processo t clock).1 = t) ∧
    (numero_processo ≠ "" → t.tentativas < R →
      (fetch R C pats envs numero_processo t clock).2.1.payloadTelemetria =
        some (fetch R C pats envs numero_processo t clock).1 ∧
      (fetch R C pats envs numero_processo t clock).1.tempo_total =
        (fetch R C pats envs numero_processo t clock).2.2 - clock) := by
  refine ⟨?_, ?_, ?_⟩
  · intro h
    subst h
    rw [fetch_invalid]
    exact ⟨rfl, rfl⟩
  · intro h1 h2
    rw [fetch_budget R C pats envs numero_processo t clock h1 h2]
    exact ⟨rfl, rfl⟩
  · intro h1 h2
    rcases hA : runAttempt pats (envs t.tentativas) numero_processo t with ⟨t1, res⟩
    cases res with
    | ok movs =>
      rw [fetch_ok R C pats envs numero_processo t t1 clock movs h1 h2 hA]
      refine ⟨rfl, ?_⟩
      dsimp only
      omega
    | error msg =>
      by_cases hc : t1.tentativas < C
      · rw [fetch_retry R C pats envs numero_processo t t1 clock msg h1 h2 hA hc]
        exact ⟨rfl, rfl⟩
      · rw [fetch_exhaust R C pats envs numero_processo t t1 clock msg h1 h2 hA (by omega)]
        refine ⟨rfl, ?_⟩
        dsimp only
        omega

/-- C2 witness: the amended theorem applied at a concrete run. -/
theorem c2_witness :
    ("123" : String) ≠ "" ∧ (⟨0, 0, 0, 0⟩ : Telemetria).tentativas < 30 ∧
    ((fetch 30 30 cPats failEnvs "123" ⟨0, 0, 0, 0⟩ 0).2.1.payloadTelemetria =
      some (fetch 30 30 cPats failEnvs "123" ⟨0, 0, 0, 0⟩ 0).1 ∧
     (fetch 30 30 cPats failEnvs "123" ⟨0, 0, 0, 0⟩ 0).1.tempo_total =
      (fetch 30 30 cPats failEnvs "123" ⟨0, 0, 0, 0⟩ 0).2.2 - 0) :=
  ⟨by decide, by decide,
   (c2_amended_telemetria_paths 30 30 cPats failEnvs "123" ⟨0, 0, 0, 0⟩ 0).2.2
     (by decide) (by decide)⟩

/-! ### C7 — CAPTCHA fallback structure -/

/-- A captcha environment in which constructing the remote client (line
84, before the `try:`) fails while the local engine would succeed. -/
def c7env : CaptchaEnv :=
  { downloadStatus := 200, clientConstruct := .error "falha de rede ao construir o cliente",
    predict := .error "nunca chamado", localOcr := .ok "xyz" }

/-- C7 counterexample: with the image downloaded (status 200), a failure
while constructing the remote client propagates even though the local
fallback would succeed — so "raises iff both the remote call and the
local fallback fail" is false: here the resolver raises while the local
engine answers `"xyz"`. -/
theorem c7_client_construct_skips_fallback :
    (resolver_captcha c7env ⟨0, 0, 0, 0⟩).2 = .error "falha de rede ao construir o cliente" ∧
    c7env.localOcr = .ok "xyz" ∧ c7env.downloadStatus = 200 :=
  ⟨rfl, rfl, rfl⟩

/-- C7 amended: given the download succeeded *and* the remote client was
constructed, the resolver falls back to the local engine exactly on
`predict` failures and raises iff both `predict` and the local engine
fail; a successful `predict` is returned stripped. -/
theorem c7_amended_fallback (cenv : CaptchaEnv) (t : Telemetria)
    (hd : cenv.downloadStatus = 200) (hc : cenv.clientConstruct = .ok ()) :
    ((resolver_captcha cenv t).2.toOption = none ↔
      cenv.predict.toOption = none ∧ cenv.localOcr.toOption = none) ∧
    (∀ e, cenv.predict = .error e → (resolver_captcha cenv t).2 = cenv.localOcr) ∧
    (∀ s, cenv.predict = .ok s → (resolver_captcha cenv t).2 = .ok (strTrim s)) := by
  obtain ⟨ds, cc, pr, lo⟩ := cenv
  dsimp only at hd hc ⊢
  subst hd
  subst hc
  unfold resolver_captcha
  rw [if_neg (by decide : ¬ (200 : Nat) ≠ 200)]
  dsimp only
  cases pr with
  | ok s =>
    refine ⟨by simp [Except.toOption], fun e he => by simp at he, fun s2 hs => ?_⟩
    rw [Except.ok.injEq] at hs
    subst hs
    rfl
  | error e =>
    cases lo with
    | ok s => exact ⟨by simp [Except.toOption], fun _ _ => rfl, fun s2 hs => by simp at hs⟩
    | error e2 => exact ⟨by simp [Except.toOption], fun _ _ => rfl, fun s2 hs => by simp at hs⟩

/-- C7 witness: the amended theorem applied at a concrete environment
whose remote `predict` fails and whose local engine succeeds. -/
theorem c7_witness :
    okCaptcha.downloadStatus = 200 ∧ okCaptcha.clientConstruct = .ok () ∧
    (resolver_captcha okCaptcha ⟨0, 0, 0, 0⟩).2 = okCaptcha.localOcr :=
  ⟨rfl, rfl, (c7_amended_fallback okCaptcha ⟨0, 0, 0, 0⟩ rfl rfl).2.1 "api fora do ar" rfl⟩

/-! ### C6 — the attempts counter never exceeds the recursive bound -/

/-- Fuel-indexed induction behind C6: the final shared telemetry
record's `tentativas` stays at most `R`. -/
theorem fetch_tentativas_le_aux (R C : Nat) (pats : Patterns) (envs : Nat → AttemptEnv)
    (numero_processo : String) :
    ∀ (k : Nat) (t : Telemetria) (clock : Nat), min R C - t.tentativas ≤ k →
      t.tentativas ≤ R →
      (fetch R C pats envs numero_processo t clock).1.tentativas ≤ R := by
  intro k
  induction k with
  | zero =>
    intro t clock hk h
    by_cases hn : numero_processo = ""
    · subst hn
      rw [fetch_invalid]
      exact h
    · by_cases hb : R ≤ t.tentativas
      · rw [fetch_budget R C pats envs numero_processo t clock hn hb]
        exact h
      · rcases hA : runAttempt pats (envs t.tentativas) numero_processo t with ⟨t1, res⟩
        have ht1 : t1.tentativas = t.tentativas := by
          have hpres := runAttempt_tentativas pats (envs t.tentativas) numero_processo t
          rw [hA] at hpres
          exact hpres
        cases res with
        | ok movs =>
          rw [fetch_ok R C pats envs numero_processo t t1 clock movs hn (by omega) hA]
          dsimp only
          omega
        | error msg =>
          rw [fetch_exhaust R C pats envs numero_processo t t1 clock msg hn (by omega) hA
            (by omega)]
          dsimp only
          omega
  | succ k ih =>
    intro t clock hk h
    by_cases hn : numero_processo = ""
    · subst hn
      rw [fetch_invalid]
      exact h
    · by_cases hb : R ≤ t.tentativas
      · rw [fetch_budget R C pats envs numero_processo t clock hn hb]
        exact h
      · rcases hA : runAttempt pats (envs t.tentativas) numero_processo t with ⟨t1, res⟩
        have ht1 : t1.tentativas = t.tentativas := by
          have hpres := runAttempt_tentativas pats (envs t.tentativas) numero_processo t
          rw [hA] at hpres
          exact hpres
        cases res with
        | ok movs =>
          rw [fetch_ok R C pats envs numero_processo t t1 clock movs hn (by omega) hA]
          dsimp only
          omega
        | error msg =>
          by_cases hc : t1.tentativas < C
          · rw [fetch_retry R C pats envs numero_processo t t1 clock msg hn (by omega) hA hc]
            dsimp only
            have hrec := ih { t1 with tentativas := t1.tentativas + 1 }
              (clock + (envs t.tentativas).dur) (by dsimp only; omega) (by dsimp only; omega)
            omega
          · rw [fetch_exhaust R C pats envs numero_processo t t1 clock msg hn (by omega) hA
              (by omega)]
            dsimp only
            omega

/-- Whenever the payload carries a telemetry record, it is exactly the
final state of the shared record. -/
theorem fetch_payload_cases (R C : Nat) (pats : Patterns) (envs : Nat → AttemptEnv)
    (numero_processo : String) (t : Telemetria) (clock : Nat) :
    (fetch R C pats envs numero_processo t clock).2.1.payloadTelemetria = none ∨
    (fetch R C pats envs numero_processo t clock).2.1.payloadTelemetria =
      some (fetch R C pats envs numero_processo t clock).1 := by
  by_cases hn : numero_processo = ""
  · subst hn
    rw [fetch_invalid]
    exact .inl rfl
  · by_cases hb : R ≤ t.tentativas
    · rw [fetch_budget R C pats envs numero_processo t clock hn hb]
      exact .inl rfl
    · rcases hA : runAttempt pats (envs t.tentativas) numero_processo t with ⟨t1, res⟩
      cases res with
      | ok movs =>
        rw [fetch_ok R C pats envs numero_processo t t1 clock movs hn (by omega) hA]
        exact .inr rfl
      | error msg =>
        by_cases hc : t1.tentativas < C
        · rw [fetch_retry R C pats envs numero_processo t t1 clock msg hn (by omega) hA hc]
          exact .inr rfl
        · rw [fetch_exhaust R C pats envs numero_processo t t1 clock msg hn (by omega) hA
            (by omega)]
          exact .inr rfl

/-- C6: for every execution of `fetch` whose telemetry starts with
`tentativas ≤ R` (the recursive-retry bound), the final record's
`tentativas` — and hence the `tentativas` of any telemetry carried by
the returned payload — never exceeds `R`, for any values of the
recursive bound `R` and the CAPTCHA bound `C`. -/
theorem c6_attempts_bounded (R C : Nat) (pats : Patterns) (envs : Nat → AttemptEnv)
    (numero_processo : String) (t : Telemetria) (clock : Nat)
    (h : t.tentativas ≤ R) :
    (fetch R C pats envs numero_processo t clock).1.tentativas ≤ R ∧
    ∀ tp, (fetch R C pats envs numero_processo t clock).2.1.payloadTelemetria = some tp →
      tp.tentativas ≤ R := by
  have hmain := fetch_tentativas_le_aux R C pats envs numero_processo
    (min R C - t.tentativas) t clock (le_refl _) h
  refine ⟨hmain, fun tp htp => ?_⟩
  rcases fetch_payload_cases R C pats envs numero_processo t clock with hc | hc
  · rw [hc] at htp
    cases htp
  · rw [hc, Option.some.injEq] at htp
    rw [← htp]
    exact hmain

/-- C6 witness: the bound theorem applied with `R = 2 < C = 5` at a
portal that fails every attempt, so the recursion actually runs. -/
theorem c6_witness :
    (⟨0, 0, 0, 0⟩ : Telemetria).tentativas ≤ 2 ∧
    ((fetch 2 5 cPats failEnvs "123" ⟨0, 0, 0, 0⟩ 0).1.tentativas ≤ 2 ∧
     ∀ tp, (fetch 2 5 cPats failEnvs "123" ⟨0, 0, 0, 0⟩ 0).2.1.payloadTelemetria = some tp →
       tp.tentativas ≤ 2) :=
  ⟨by decide, c6_attempts_bounded 2 5 cPats failEnvs "123" ⟨0, 0, 0, 0⟩ 0 (by decide)⟩

/-! ### C4 — totality of the movement parser -/

/-- Every row past the header of every result-marked table. -/
def allResultRows (soup : Node) : List Node := ((resultTables soup).map dataRows).flatten

/-- The rows the parser is supposed to turn into records: at least five
cells, grouped per table in document order. -/
def qualifyingRows (soup : Node) : List Node :=
  ((resultTables soup).map
    (fun tab => (dataRows tab).filter (fun linha => 5 ≤ (tdCells linha).length))).flatten

/-- A row on which line 47 does not raise: its fifth cell either has at
most two content nodes, or its third content node is a text node. -/
def cell5Safe (linha : Node) : Bool :=
  let c4 := (tdCells linha).getD 4 (.text "")
  c4.children.length ≤ 2 ||
    (match c4.children.getD 2 (.text "") with
     | .text _ => true
     | .elem _ _ _ => false)

/-- Rows with fewer than five cells are skipped without error. -/
theorem processLinha_short (linha : Node) (h : (tdCells linha).length < 5) :
    processLinha linha = .ok none := by
  unfold processLinha
  rw [if_neg (by omega)]

/-- A safe row with at least five cells yields exactly one record. -/
theorem processLinha_safe (linha : Node) (hs : cell5Safe linha = true)
    (h5 : 5 ≤ (tdCells linha).length) :
    ∃ m, processLinha linha = .ok (some m) := by
  unfold processLinha
  rw [if_pos h5]
  unfold cell5Safe at hs
  dsimp only at hs
  unfold nomeFromContents
  dsimp only
  by_cases hl : ((tdCells linha).getD 4 (.text "")).children.length > 2
  · rw [if_pos hl]
    cases hmatch : ((tdCells linha).getD 4 (.text "")).children.getD 2 (.text "") with
    | text s => exact ⟨_, rfl⟩
    | elem tag attrs cs =>
      rw [hmatch] at hs
      simp only [Bool.or_false, decide_eq_true_eq] at hs
      omega
  · rw [if_neg hl]
    exact ⟨_, rfl⟩

/-- Row-list totality with exact counting. -/
theorem processLinhas_safe (rows : List Node)
    (hs : ∀ linha ∈ rows, cell5Safe linha = true) :
    ∃ ms, processLinhas rows = .ok ms ∧
      ms.length = (rows.filter (fun linha => 5 ≤ (tdCells linha).length)).length := by
  induction rows with
  | nil => exact ⟨[], rfl, rfl⟩
  | cons linha rest ih =>
    obtain ⟨ms, hms, hlen⟩ := ih (fun x hx => hs x (List.mem_cons_of_mem _ hx))
    by_cases h5 : 5 ≤ (tdCells linha).length
    · obtain ⟨m, hm⟩ := processLinha_safe linha (hs linha (List.mem_cons_self _ _)) h5
      refine ⟨m :: ms, ?_, ?_⟩
      · unfold processLinhas
        rw [hm, hms]
      · simp [List.filter_cons, h5, hlen]
    · have hm := processLinha_short linha (by omega)
      refine ⟨ms, ?_, ?_⟩
      · unfold processLinhas
        rw [hm, hms]
      · simp [List.filter_cons, h5, hlen]

/-- Table-list totality with exact counting. -/
theorem processTabelas_safe (tabs : List Node)
    (hs : ∀ tab ∈ tabs, ∀ linha ∈ dataRows tab, cell5Safe linha = true) :
    ∃ ms, processTabelas tabs = .ok ms ∧
      ms.length = ((tabs.map
        (fun tab => (dataRows tab).filter (fun linha => 5 ≤ (tdCells linha).length))).flatten).length := by
  induction tabs with
  | nil => exact ⟨[], rfl, rfl⟩
  | cons tab rest ih =>
    obtain ⟨ms2, hms2, hlen2⟩ := ih (fun x hx => hs x (List.mem_cons_of_mem _ hx))
    obtain ⟨ms1, hms1, hlen1⟩ := processLinhas_safe (dataRows tab)
      (hs tab (List.mem_cons_self _ _))
    refine ⟨ms1 ++ ms2, ?_, ?_⟩
    · unfold processTabelas
      rw [hms1, hms2]
    · simp [List.length_append, hlen1, hlen2]

/-- C4 amended: the claim as stated is refuted by
`c4_tag_in_cell5_raises` below — a row whose fifth cell has an element
as its third content node makes line 47 raise.  On every document whose
result rows avoid that one shape, the parser is total: it returns
exactly one record per row with at least five cells, and rows with fewer
than five cells are the only ones excluded. -/
theorem c4_amended_parser_total (soup : Node)
    (hs : ∀ linha ∈ allResultRows soup, cell5Safe linha = true) :
    ∃ ms, extrair_movimentacoes soup = .ok ms ∧ ms.length = (qualifyingRows soup).length := by
  unfold extrair_movimentacoes qualifyingRows
  refine processTabelas_safe (resultTables soup) ?_
  intro tab htab linha hlinha
  refine hs linha ?_
  unfold allResultRows
  rw [List.mem_flatten]
  exact ⟨dataRows tab, List.mem_map_of_mem _ htab, hlinha⟩

/-- A result row whose fifth cell's third content node is a bold tag. -/
def c4CrashRow : Node :=
  trN [tdN [], tdN [.text "1"], tdN [.text "02/01/2024"], tdN [.text "Evento"],
    tdN [.elem "b" [] [.text "x"], .elem "b" [] [.text "y"], .elem "b" [] [.text "z"]]]

def c4CrashSoup : Node := .elem "[document]" [] [resultTableN [trN [], c4CrashRow]]

/-- C4 counterexample: a row with five cells (so within the claimed
domain) on which the parser raises instead of producing a record — the
fifth cell's `contents[2]` is a tag and `.strip()` on it fails. -/
theorem c4_tag_in_cell5_raises :
    (tdCells c4CrashRow).length = 5 ∧
    extrair_movimentacoes c4CrashSoup = .error "AttributeError: contents[2] is a Tag" :=
  ⟨rfl, rfl⟩

/-- C4 witness: the amended totality theorem applied to a concrete
document with one qualifying row and one three-cell row. -/
theorem c4_witness :
    (∀ linha ∈ allResultRows
      (Node.elem "[document]" [] [resultTableN [trN [],
        trN [tdN [], tdN [.text "1"], tdN [.text "02/01"], tdN [.text "Despacho"],
          tdN [.text "Ana"]],
        trN [tdN [.text "a"], tdN [.text "b"], tdN [.text "c"]]]]),
      cell5Safe linha = true) ∧
    ∃ ms, extrair_movimentacoes
      (Node.elem "[document]" [] [resultTableN [trN [],
        trN [tdN [], tdN [.text "1"], tdN [.text "02/01"], tdN [.text "Despacho"],
          tdN [.text "Ana"]],
        trN [tdN [.text "a"], tdN [.text "b"], tdN [.text "c"]]]]) = .ok ms ∧
      ms.length = (qualifyingRows
        (Node.elem "[document]" [] [resultTableN [trN [],
          trN [tdN [], tdN [.text "1"], tdN [.text "02/01"], tdN [.text "Despacho"],
            tdN [.text "Ana"]],
          trN [tdN [.text "a"], tdN [.text "b"], tdN [.text "c"]]]])).length :=
  ⟨by decide, c4_amended_parser_total _ (by decide)⟩

/-! ### C5 — actor-field precedence -/

/-- A one-table document whose single data row has the given fifth
cell; the first four cells are fixed. -/
def actorCellSoup (cell4 : Node) : Node :=
  .elem "[document]" [] [resultTableN [trN [],
    trN [tdN [], tdN [.text "1"], tdN [.text "02/01"], tdN [.text "Despacho"], cell4]]]

/-- The role component, per the amended claim: the stripped text of the
first bolded sub-element of the fifth cell, empty if there is none. -/
def claimRole (c4 : Node) : String :=
  match findFirst (fun n => n.tagIs "b") c4 with
  | some tag_b => getTextStrip tag_b
  | none => ""

/-- The name component, per the amended claim: the fifth cell's *third*
content node, stripped, whenever the cell has more than two content
nodes and that node is a text node; only when that yields the empty
string (or there is no such text node) is the first direct text child
used.  The more-than-two-content-nodes-with-a-tag-in-third-position case
is the raising one (C4) and is excluded by `cell5Safe`. -/
def claimName (c4 : Node) : String :=
  let terceiro := if c4.children.length > 2 then
      match c4.children.getD 2 (.text "") with
      | .text s => strTrim s
      | .elem _ _ _ => ""
    else ""
  if terceiro = "" then
    match firstDirectText c4 with
    | some s => strTrim s
    | none => ""
  else terceiro

/-- The actor field, per the amended claim's clauses: with name and role
both nonempty the field is `"name - role"`; with neither present it is
the cell's full trimmed text; with exactly one present that one is used
alone. -/
def claimActor (c4 : Node) : String :=
  if claimName c4 ≠ "" ∧ claimRole c4 ≠ "" then claimName c4 ++ " - " ++ claimRole c4
  else if claimName c4 = "" ∧ claimRole c4 = "" then getTextStrip c4
  else if claimName c4 ≠ "" then claimName c4
  else claimRole c4

/-- The record the amended claim predicts for one qualifying row:
sequence from cell 1, date from cell 2, space-joined event text from
cell 3, and the precedence-derived actor from cell 4. -/
def recordOfRow (linha : Node) : Movimentacao :=
  { seq := getTextStrip ((tdCells linha).getD 1 (.text ""))
    data := getTextStrip ((tdCells linha).getD 2 (.text ""))
    evento := String.intercalate " " (strippedStrings ((tdCells linha).getD 3 (.text "")))
    movimentado_por := claimActor ((tdCells linha).getD 4 (.text "")) }

/-- The code's actor expression coincides with the claim-side
`claimActor` whenever its `nome` input is `claimName`. -/
theorem movimentado_por_eq_claimActor (c4 : Node) (nome : String)
    (hn : nome = claimName c4) :
    (if nome ≠ "" ∧ claimRole c4 ≠ "" then nome ++ " - " ++ claimRole c4
     else if nome ≠ "" then nome
     else if claimRole c4 ≠ "" then claimRole c4
     else getTextStrip c4) = claimActor c4 := by
  subst hn
  unfold claimActor
  by_cases h1 : claimName c4 = "" <;> by_cases h2 : claimRole c4 = "" <;> simp [h1, h2]

/-- A safe row with at least five cells yields exactly the record the
amended claim predicts. -/
theorem processLinha_eq (linha : Node) (hs : cell5Safe linha = true)
    (h5 : 5 ≤ (tdCells linha).length) :
    processLinha linha = .ok (some (recordOfRow linha)) := by
  unfold processLinha recordOfRow
  rw [if_pos h5]
  unfold cell5Safe at hs
  dsimp only at hs
  unfold nomeFromContents
  dsimp only
  have hcargo : (match findFirst (fun n => n.tagIs "b") ((tdCells linha).getD 4 (.text "")) with
      | some tag_b => getTextStrip tag_b
      | none => "") = claimRole ((tdCells linha).getD 4 (.text "")) := rfl
  by_cases hl : ((tdCells linha).getD 4 (.text "")).children.length > 2
  · rw [if_pos hl]
    cases hmatch : ((tdCells linha).getD 4 (.text "")).children.getD 2 (.text "") with
    | text s =>
      have hn : (if strTrim s = "" then
          (match firstDirectText ((tdCells linha).getD 4 (.text "")) with
           | some t => strTrim t
           | none => "")
          else strTrim s) = claimName ((tdCells linha).getD 4 (.text "")) := by
        unfold claimName
        dsimp only
        rw [if_pos hl, hmatch]
      dsimp only
      rw [hcargo, movimentado_por_eq_claimActor _ _ hn]
    | elem tag attrs cs =>
      rw [hmatch] at hs
      simp only [Bool.or_false, decide_eq_true_eq] at hs
      omega
  · rw [if_neg hl]
    have hn : (if ("" : String) = "" then
        (match firstDirectText ((tdCells linha).getD 4 (.text "")) with
         | some t => strTrim t
         | none => "")
        else "") = claimName ((tdCells linha).getD 4 (.text "")) := by
      unfold claimName
      dsimp only
      rw [if_neg hl]
    dsimp only
    rw [hcargo, movimentado_por_eq_claimActor _ _ hn]

/-- Row-list version: one predicted record per qualifying row, in
order. -/
theorem processLinhas_map (rows : List Node)
    (hs : ∀ linha ∈ rows, cell5Safe linha = true) :
    processLinhas rows =
      .ok (((rows.filter (fun linha => 5 ≤ (tdCells linha).length))).map recordOfRow) := by
  induction rows with
  | nil => rfl
  | cons linha rest ih =>
    have h1 := ih (fun x hx => hs x (List.mem_cons_of_mem _ hx))
    by_cases h5 : 5 ≤ (tdCells linha).length
    · have hm := processLinha_eq linha (hs linha (List.mem_cons_self _ _)) h5
      unfold processLinhas
      rw [hm, h1]
      simp [List.filter_cons, h5]
    · have hm := processLinha_short linha (by omega)
      unfold processLinhas
      rw [hm, h1]
      simp [List.filter_cons, h5]

/-- Table-list version. -/
theorem processTabelas_map (tabs : List Node)
    (hs : ∀ tab ∈ tabs, ∀ linha ∈ dataRows tab, cell5Safe linha = true) :
    processTabelas tabs =
      .ok (((tabs.map
        (fun tab => (dataRows tab).filter (fun linha => 5 ≤ (tdCells linha).length))).flatten).map
          recordOfRow) := by
  induction tabs with
  | nil => rfl
  | cons tab rest ih =>
    have h2 := ih (fun x hx => hs x (List.mem_cons_of_mem _ hx))
    have h1 := processLinhas_map (dataRows tab) (hs tab (List.mem_cons_self _ _))
    unfold processTabelas
    rw [h1, h2]
    simp [List.map_append]

/-- C5 amended, in full generality: on every document whose result rows
avoid the raising shape of C4, the parser produces exactly one record
per qualifying row, and its actor field follows the code's real
precedence — the name is the fifth cell's third content node (stripped)
when the cell has more than two content nodes and that node is text,
falling back to the first direct text child only when that is empty;
name and role both nonempty join as `"name - role"`, exactly one present
is used alone, neither present falls back to the cell's full trimmed
text.  The original claim's "leading text node first" reading is refuted
by `c5_trailing_text_beats_leading_name`. -/
theorem c5_amended_actor_precedence (soup : Node)
    (hs : ∀ linha ∈ allResultRows soup, cell5Safe linha = true) :
    extrair_movimentacoes soup = .ok ((qualifyingRows soup).map recordOfRow) := by
  unfold extrair_movimentacoes qualifyingRows
  apply processTabelas_map
  intro tab htab linha hlinha
  apply hs
  unfold allResultRows
  rw [List.mem_flatten]
  exact ⟨dataRows tab, List.mem_map_of_mem _ htab, hlinha⟩

/-- C5 counterexample: a cell with leading name text `"Ana"`, bolded
role `"Juiz"` *and* trailing text `"Extra"` — name and role present, but
the actor field is `"Extra - Juiz"`, not the claimed `"Ana - Juiz"`. -/
theorem c5_trailing_text_beats_leading_name :
    extrair_movimentacoes
      (actorCellSoup (tdN [.text "Ana", .elem "b" [] [.text "Juiz"], .text "Extra"])) =
      .ok [{ seq := "1", data := "02/01", evento := "Despacho",
             movimentado_por := "Extra - Juiz" }] ∧
    ("Extra - Juiz" : String) ≠ "Ana - Juiz" :=
  ⟨rfl, by decide⟩

/-- A document exercising every clause of the precedence: a whitespace
third node (leading name used), a nonempty third node (it wins), a
role-only cell, a name-only cell, a cell with neither (full trimmed
text), and a two-cell row that is skipped. -/
def c5MixSoup : Node :=
  .elem "[document]" [] [resultTableN [trN [],
    trN [tdN [], tdN [.text "1"], tdN [.text "02/01"], tdN [.text "E1"],
      tdN [.text "Ana", .elem "b" [] [.text "Juiz"], .text "   "]],
    trN [tdN [], tdN [.text "2"], tdN [.text "03/01"], tdN [.text "E2"],
      tdN [.text "Ana", .elem "b" [] [.text "Juiz"], .text "Extra"]],
    trN [tdN [], tdN [.text "3"], tdN [.text "04/01"], tdN [.text "E3"],
      tdN [.elem "b" [] [.text "Escrivao"]]],
    trN [tdN [], tdN [.text "4"], tdN [.text "05/01"], tdN [.text "E4"],
      tdN [.text "SoNome"]],
    trN [tdN [], tdN [.text "5"], tdN [.text "06/01"], tdN [.text "E5"],
      tdN [.elem "span" [] [.text "Pessoa"]]],
    trN [tdN [.text "x"], tdN [.text "y"]]]]

/-- C5 witness: the amended theorem applied to `c5MixSoup`; the actor
fields come out as each precedence clause dictates. -/
theorem c5_witness :
    (∀ linha ∈ allResultRows c5MixSoup, cell5Safe linha = true) ∧
    extrair_movimentacoes c5MixSoup = .ok ((qualifyingRows c5MixSoup).map recordOfRow) ∧
    ((qualifyingRows c5MixSoup).map recordOfRow).map Movimentacao.movimentado_por =
      ["Ana - Juiz", "Extra - Juiz", "Escrivao", "SoNome", "Pessoa"] :=
  ⟨by decide, c5_amended_actor_precedence c5MixSoup (by decide), by decide⟩

/-! ### C3 — "not found" tokens at the four extraction sites -/

/-- C3 amended: at the select, autocomplete, and first `HtmlContent`
sites a "not found" token raises a hard failure (which `fetch`'s
`except:` turns into a retry), but at the fourth site — the second,
older-movements page — a "not found" token silently falls back to the
single first fragment instead of failing. -/
theorem c3_amended_token_not_found :
    (∀ (pats : Patterns) (env : OrchEnv) (numero url : String) (soup : Node)
       (t : Telemetria) (log : List Request),
       extrair_url_token (scriptsJs soup) pats.select = none →
       etapaSelect pats env numero soup url t log =
         (t, log, .error "URL com _tj= não encontrada no HTML")) ∧
    (∀ (pats : Patterns) (env : OrchEnv) (numero url : String) (soup : Node)
       (tags : List Node) (t : Telemetria) (log : List Request),
       extrair_url_token tags pats.autocomplete = none →
       etapaAutocomplete pats env numero soup url tags t log =
         (t, log, .error "URL do Autocomplete com _tj= não encontrada no HTML")) ∧
    (∀ (pats : Patterns) (env : OrchEnv) (soup_final : Node)
       (t : Telemetria) (log : List Request),
       extrair_url_token (scriptsJs soup_final) pats.htmlContent = none →
       etapaResultados pats env soup_final t log =
         (t, log, .error "Token/URL da chamada AjaxJspTag.HtmlContent não encontrado")) ∧
    (∀ (pats : Patterns) (env : OrchEnv) (soup_1 : Node)
       (t : Telemetria) (log : List Request),
       containsStr (allText soup_1) MARKER_MAIS_ANTIGAS = true →
       extrair_url_token (scriptsJs soup_1) pats.htmlContent = none →
       etapaPaginacao pats env soup_1 t log = (t, log, .ok soup_1)) := by
  refine ⟨?_, ?_, ?_, ?_⟩
  · intro pats env numero url soup t log h
    unfold etapaSelect
    dsimp only
    rw [h]
  · intro pats env numero url soup tags t log h
    unfold etapaAutocomplete
    rw [h]
  · intro pats env soup_final t log h
    unfold etapaResultados
    rw [h]
  · intro pats env soup_1 t log hm h
    unfold etapaPaginacao
    rw [if_pos hm, h]

/-- First results fragment that mentions the older-movements marker but
carries no script with an `HtmlContent` token. -/
def c3Res1 : Node := .elem "[document]" [] [.text MARKER_MAIS_ANTIGAS]

/-- C3 counterexample: an end-to-end run with every step answering,
where the older-movements marker is present but the second-page token
extraction yields "not found" — `fetch` nevertheless returns a success
payload; no hard failure aborts the attempt.  Refutes the claim for the
fourth call site. -/
theorem c3_site_d_not_found_no_failure :
    extrair_url_token (scriptsJs c3Res1) cPats.htmlContent = none ∧
    containsStr (allText c3Res1) MARKER_MAIS_ANTIGAS = true ∧
    (fetch 30 30 cPats (successEnvs c3Res1 docEmpty) "123" ⟨0, 0, 0, 0⟩ 0).2.1 =
      .success 200 "SUCESSO" 0 [] ⟨0, 1, 0, 0⟩ := by
  refine ⟨rfl, by decide, ?_⟩
  have h3 : runAttempt cPats (successEnvs c3Res1 docEmpty 0) "123" ⟨0, 0, 0, 0⟩ =
      (⟨0, 1, 0, 0⟩, .ok []) := by rfl
  rw [fetch_ok 30 30 cPats (successEnvs c3Res1 docEmpty) "123" ⟨0, 0, 0, 0⟩ ⟨0, 1, 0, 0⟩ 0 []
    (by decide) (by decide) h3]
  rfl

/-- C3 witness: the amended theorem applied at concrete sites — the
select site fails hard on a missing token, the second-page site falls
back silently. -/
theorem c3_witness :
    extrair_url_token (scriptsJs docEmpty) cPats.select = none ∧
    etapaSelect cPats failEnv "1" docEmpty "u" ⟨0, 0, 0, 0⟩ [] =
      (⟨0, 0, 0, 0⟩, [], .error "URL com _tj= não encontrada no HTML") ∧
    containsStr (allText c3Res1) MARKER_MAIS_ANTIGAS = true ∧
    extrair_url_token (scriptsJs c3Res1) cPats.htmlContent = none ∧
    etapaPaginacao cPats failEnv c3Res1 ⟨0, 0, 0, 0⟩ [] = (⟨0, 0, 0, 0⟩, [], .ok c3Res1) :=
  ⟨rfl, c3_amended_token_not_found.1 cPats failEnv "1" "u" docEmpty ⟨0, 0, 0, 0⟩ [] rfl,
   by decide, rfl,
   c3_amended_token_not_found.2.2.2 cPats failEnv c3Res1 ⟨0, 0, 0, 0⟩ [] (by decide) rfl⟩

/-! ### C10 — no qualifying rows is a success, not an error -/

/-- With no row reaching five cells anywhere in the result-marked
tables, the parser returns the empty list without error. -/
theorem extrair_no_qualifying (S : Node)
    (h : ∀ linha ∈ allResultRows S, (tdCells linha).length < 5) :
    extrair_movimentacoes S = .ok [] := by
  have hs : ∀ linha ∈ allResultRows S, cell5Safe linha = true := by
    intro linha hl
    have h5 := h linha hl
    unfold cell5Safe
    have hd : (tdCells linha).getD 4 (.text "") = .text "" := by
      apply List.getD_eq_default
      omega
    rw [hd]
    rfl
  obtain ⟨ms, hms, hlen⟩ := c4_amended_parser_total S hs
  have hq : (qualifyingRows S).length = 0 := by
    rw [List.length_eq_zero]
    unfold qualifyingRows
    rw [List.flatten_eq_nil_iff]
    intro l hl
    rw [List.mem_map] at hl
    obtain ⟨tab, htab, rfl⟩ := hl
    rw [List.filter_eq_nil_iff]
    intro linha hlinha hp
    have := h linha (by
      unfold allResultRows
      rw [List.mem_flatten]
      exact ⟨dataRows tab, List.mem_map_of_mem _ htab, hlinha⟩)
    simp at hp
    omega
  rw [hms]
  rw [hq] at hlen
  rw [List.length_eq_zero] at hlen
  rw [hlen]

/-- C10: if the attempt's orchestration succeeds with combined markup in
which no result-marked table has a data row with at least five cells,
`fetch` returns a success payload — code 200, message `"SUCESSO"` and an
empty movements list — carrying the telemetry; the absence of movements
is not an error. -/
theorem c10_empty_results_success (R C : Nat) (pats : Patterns) (envs : Nat → AttemptEnv)
    (numero_processo : String) (t : Telemetria) (clock : Nat) (S : Node)
    (h1 : numero_processo ≠ "") (h2 : t.tentativas < R)
    (h3 : (orchestrate pats (envs t.tentativas).orch numero_processo t).2.2 = .ok S)
    (h4 : ∀ linha ∈ allResultRows S, (tdCells linha).length < 5) :
    (fetch R C pats envs numero_processo t clock).2.1 =
      .success 200 "SUCESSO" (clock + (envs t.tentativas).dur) []
        { (orchestrate pats (envs t.tentativas).orch numero_processo t).1 with
            tempo_total := (envs t.tentativas).dur } := by
  rcases horch : orchestrate pats (envs t.tentativas).orch numero_processo t with ⟨t1, log, res⟩
  rw [horch] at h3
  dsimp only at h3
  subst h3
  have hA : runAttempt pats (envs t.tentativas) numero_processo t = (t1, .ok []) := by
    unfold runAttempt
    rw [horch]
    dsimp only
    rw [extrair_no_qualifying S h4]
  rw [fetch_ok R C pats envs numero_processo t t1 clock [] h1 h2 hA]

/-- A results page whose single table has only a header and a two-cell
row. -/
def c10Soup : Node :=
  .elem "[document]" [] [resultTableN [trN [], trN [tdN [.text "a"], tdN [.text "b"]]]]

/-- C10 witness: the theorem applied to a concrete run against a portal
whose results page has no row with five cells. -/
theorem c10_witness :
    (fetch 30 30 cPats (successEnvs c10Soup docEmpty) "123" ⟨0, 0, 0, 0⟩ 0).2.1 =
      .success 200 "SUCESSO" 0 [] ⟨0, 1, 0, 0⟩ := by
  rw [c10_empty_results_success 30 30 cPats (successEnvs c10Soup docEmpty) "123" ⟨0, 0, 0, 0⟩ 0
    c10Soup (by decide) (by decide) rfl (by decide)]
  rfl

/-! ### C8 — the case number is sent verbatim -/

/-- The form payloads the orchestrator ever POSTs: the dummy results
payload, the autocomplete payload, or the full search form. -/
def payloadOk (numero_processo : String) (p : List (String × String)) : Prop :=
  p = payload_ultimo ∨ p = payload_segundo_ajax numero_processo ∨
    ∃ ocr, p = payload_form numero_processo ocr

theorem mem_log_snoc_post {u x : String} {p q : List (String × String)} {log : List Request}
    (hp : Request.post u p ∈ log ++ [Request.post x q]) :
    Request.post u p ∈ log ∨ p = q := by
  rcases List.mem_append.mp hp with h | h
  · exact .inl h
  · rw [List.mem_singleton] at h
    injection h with h1 h2
    exact .inr h2

theorem mem_log_snoc_get {u y : String} {p : List (String × String)} {log : List Request}
    (hp : Request.post u p ∈ log ++ [Request.get y]) :
    Request.post u p ∈ log := by
  rcases List.mem_append.mp hp with h | h
  · exact h
  · rw [List.mem_singleton] at h
    exact (Request.noConfusion h)

theorem etapaPaginacao_posts (numero_processo : String) (pats : Patterns) (env : OrchEnv)
    (soup_1 : Node) (t : Telemetria) (log : List Request) :
    ∀ u p, Request.post u p ∈ (etapaPaginacao pats env soup_1 t log).2.1 →
      Request.post u p ∈ log ∨ payloadOk numero_processo p := by
  intro u p
  unfold etapaPaginacao
  dsimp only
  repeat' split
  all_goals intro hp
  all_goals first
  | exact .inl hp
  | (rcases mem_log_snoc_post hp with h | h
     exacts [.inl h, .inr (.inl h)])

theorem etapaResultados_posts (numero_processo : String) (pats : Patterns) (env : OrchEnv)
    (soup_final : Node) (t : Telemetria) (log : List Request) :
    ∀ u p, Request.post u p ∈ (etapaResultados pats env soup_final t log).2.1 →
      Request.post u p ∈ log ∨ payloadOk numero_processo p := by
  intro u p
  unfold etapaResultados
  dsimp only
  repeat' split
  all_goals intro hp
  all_goals first
  | exact .inl hp
  | (rcases mem_log_snoc_post hp with h | h
     exacts [.inl h, .inr (.inl h)])
  | (rcases etapaPaginacao_posts numero_processo pats env _ _ _ u p hp with h | h
     · rcases mem_log_snoc_post h with h2 | h2
       exacts [.inl h2, .inr (.inl h2)]
     · exact .inr h)

theorem etapaFormulario_posts (numero_processo resultado_ocr : String) (pats : Patterns)
    (env : OrchEnv) (soup_consulta : Node) (t : Telemetria) (log : List Request) :
    ∀ u p, Request.post u p ∈
        (etapaFormulario pats env numero_processo resultado_ocr soup_consulta t log).2.1 →
      Request.post u p ∈ log ∨ payloadOk numero_processo p := by
  intro u p
  unfold etapaFormulario
  dsimp only
  repeat' split
  all_goals intro hp
  all_goals first
  | exact .inl hp
  | (rcases mem_log_snoc_post hp with h | h
     exacts [.inl h, .inr (.inr (.inr ⟨_, h⟩))])
  | (rcases etapaResultados_posts numero_processo pats env _ _ _ u p hp with h | h
     · rcases mem_log_snoc_post h with h2 | h2
       exacts [.inl h2, .inr (.inr (.inr ⟨_, h2⟩))]
     · exact .inr h)

theorem etapaCaptcha_posts (numero_processo : String) (pats : Patterns) (env : OrchEnv)
    (soup_consulta : Node) (url_captcha : String) (t : Telemetria) (log : List Request) :
    ∀ u p, Request.post u p ∈
        (etapaCaptcha pats env numero_processo soup_consulta url_captcha t log).2.1 →
      Request.post u p ∈ log ∨ payloadOk numero_processo p := by
  intro u p
  unfold etapaCaptcha
  dsimp only
  repeat' split
  all_goals intro hp
  all_goals first
  | exact .inl (mem_log_snoc_get hp)
  | (rcases etapaFormulario_posts numero_processo _ pats env _ _ _ u p hp with h | h
     exacts [.inl (mem_log_snoc_get h), .inr h])

theorem etapaAutocomplete_posts (numero_processo : String) (pats : Patterns) (env : OrchEnv)
    (soup_consulta : Node) (url_captcha : String) (script_tags : List Node)
    (t : Telemetria) (log : List Request) :
    ∀ u p, Request.post u p ∈
        (etapaAutocomplete pats env numero_processo soup_consulta url_captcha script_tags t log).2.1 →
      Request.post u p ∈ log ∨ payloadOk numero_processo p := by
  intro u p
  unfold etapaAutocomplete
  dsimp only
  repeat' split
  all_goals intro hp
  all_goals first
  | exact .inl hp
  | (rcases mem_log_snoc_post hp with h | h
     exacts [.inl h, .inr (.inr (.inl h))])
  | (rcases etapaCaptcha_posts numero_processo pats env _ _ _ _ u p hp with h | h
     · rcases mem_log_snoc_post h with h2 | h2
       exacts [.inl h2, .inr (.inr (.inl h2))]
     · exact .inr h)

theorem etapaSelect_posts (numero_processo : String) (pats : Patterns) (env : OrchEnv)
    (soup_consulta : Node) (url_captcha : String) (t : Telemetria) (log : List Request) :
    ∀ u p, Request.post u p ∈
        (etapaSelect pats env numero_processo soup_consulta url_captcha t log).2.1 →
      Request.post u p ∈ log ∨ payloadOk numero_processo p := by
  intro u p
  unfold etapaSelect
  dsimp only
  repeat' split
  all_goals intro hp
  all_goals first
  | exact .inl hp
  | exact .inl (mem_log_snoc_get hp)
  | (rcases etapaAutocomplete_posts numero_processo pats env _ _ _ _ _ u p hp with h | h
     exacts [.inl (mem_log_snoc_get h), .inr h])

theorem etapaConsulta_posts (numero_processo : String) (pats : Patterns) (env : OrchEnv)
    (url_final : String) (t : Telemetria) (log : List Request) :
    ∀ u p, Request.post u p ∈ (etapaConsulta pats env numero_processo url_final t log).2.1 →
      Request.post u p ∈ log ∨ payloadOk numero_processo p := by
  intro u p
  unfold etapaConsulta
  dsimp only
  repeat' split
  all_goals intro hp
  all_goals first
  | exact .inl (mem_log_snoc_get hp)
  | (rcases etapaSelect_posts numero_processo pats env _ _ _ _ u p hp with h | h
     exacts [.inl (mem_log_snoc_get h), .inr h])

theorem etapaCabecalho_posts (numero_processo : String) (pats : Patterns) (env : OrchEnv)
    (url_final : String) (t : Telemetria) (log : List Request) :
    ∀ u p, Request.post u p ∈ (etapaCabecalho pats env numero_processo url_final t log).2.1 →
      Request.post u p ∈ log ∨ payloadOk numero_processo p := by
  intro u p
  unfold etapaCabecalho
  dsimp only
  repeat' split
  all_goals intro hp
  all_goals first
  | exact .inl (mem_log_snoc_get hp)
  | (rcases etapaConsulta_posts numero_processo pats env _ _ _ u p hp with h | h
     exacts [.inl (mem_log_snoc_get h), .inr h])

theorem orchestrate_posts (numero_processo : String) (pats : Patterns) (env : OrchEnv)
    (t : Telemetria) :
    ∀ u p, Request.post u p ∈ (orchestrate pats env numero_processo t).2.1 →
      payloadOk numero_processo p := by
  intro u p
  unfold orchestrate
  dsimp only
  repeat' split
  all_goals intro hp
  all_goals first
  | (rw [List.mem_singleton] at hp
     exact (Request.noConfusion hp))
  | (rcases etapaCabecalho_posts numero_processo pats env _ _ _ u p hp with h | h
     · rw [List.mem_singleton] at h
       exact (Request.noConfusion h)
     · exact h)

/-- C8: every POST the orchestrator makes either carries no
`numeroProcesso` field at all (the dummy results payload) or carries the
input case number verbatim in that field — the digit-normalisation
helper is never applied on the hot path; and the helper itself, when
called, keeps exactly the digit characters of its input. -/
theorem c8_numero_sent_verbatim :
    (∀ (pats : Patterns) (env : OrchEnv) (numero_processo : String) (t : Telemetria)
       (u : String) (p : List (String × String)),
       Request.post u p ∈ (orchestrate pats env numero_processo t).2.1 →
       p.lookup "numeroProcesso" = some numero_processo ∨
       p.lookup "numeroProcesso" = none) ∧
    (∀ s : String, (formatar_numero_processo s).data = s.data.filter Char.isDigit ∧
       ∀ c ∈ (formatar_numero_processo s).data, c.isDigit = true) := by
  constructor
  · intro pats env numero_processo t u p hp
    rcases orchestrate_posts numero_processo pats env t u p hp with h | h | ⟨ocr, h⟩
    · subst h
      exact .inr rfl
    · subst h
      exact .inl rfl
    · subst h
      exact .inl rfl
  · intro s
    refine ⟨rfl, fun c hc => ?_⟩
    unfold formatar_numero_processo at hc
    dsimp only at hc
    exact (List.mem_filter.mp hc).2

/-- C8 witness: in a full fixture run with a formatted case number, the
autocomplete POST is in the log and carries the number verbatim. -/
theorem c8_witness :
    Request.post (BASE_URL ++ "/auto?_tj=1")
        (payload_segundo_ajax "0001234-56.2023.8.16.0001") ∈
      (orchestrate cPats (successEnv docEmpty docEmpty)
        "0001234-56.2023.8.16.0001" ⟨0, 0, 0, 0⟩).2.1 ∧
    ((payload_segundo_ajax "0001234-56.2023.8.16.0001").lookup "numeroProcesso" =
       some "0001234-56.2023.8.16.0001" ∨
     (payload_segundo_ajax "0001234-56.2023.8.16.0001").lookup "numeroProcesso" = none) :=
  ⟨by decide,
   c8_numero_sent_verbatim.1 cPats (successEnv docEmpty docEmpty)
     "0001234-56.2023.8.16.0001" ⟨0, 0, 0, 0⟩ (BASE_URL ++ "/auto?_tj=1")
     (payload_segundo_ajax "0001234-56.2023.8.16.0001") (by decide)⟩

/-! ### C9 — URL resolution at the four token sites -/

/-- First results fragment with the older-movements marker and a script
carrying the second-page token. -/
def c9Res1 : Node := .elem "[document]" [] [.text MARKER_MAIS_ANTIGAS, scriptNode "HTML2"]

/-- C9: in a run that reaches the second results page, the requests made
at the select, autocomplete and first `HtmlContent` sites use an
absolute (`http`-prefixed) token verbatim — the conditional
`token if token.startswith("http") else BASE_URL + token` — while the
second/older-movements site POSTs to `BASE_URL ++ token`
unconditionally, even though its token is also absolute. -/
theorem c9_second_page_unconditional_base_url
    (tokS tokA tokH1 tokD tokF numero_processo : String) (t : Telemetria)
    (hS1 : hasTj tokS = true) (hA1 : hasTj tokA = true) (hH1 : hasTj tokH1 = true)
    (hD1 : hasTj tokD = true)
    (hS2 : containsStr tokS "codComarca" = true)
    (hS3 : strStarts tokS "http" = true) (hA3 : strStarts tokA "http" = true)
    (hH3 : strStarts tokH1 "http" = true) (hF3 : strStarts tokF "http" = true)
    (hD3 : strStarts tokD "http" = true) :
    (orchestrate (fixPats tokS tokA tokH1 tokD tokF) (successEnv c9Res1 docEmpty)
      numero_processo t).2.1 =
    [Request.get (BASE_URL ++ "/projudi_consulta/"),
     Request.get (BASE_URL ++ "/projudi_consulta/cabecalho.jsp"),
     Request.get (BASE_URL ++ "/consulta.jsp?x=1"),
     Request.get tokS,
     Request.post tokA (payload_segundo_ajax numero_processo),
     Request.get (BASE_URL ++ "/captcha.png"),
     Request.post tokF (payload_form numero_processo "OCR"),
     Request.post tokH1 payload_ultimo,
     Request.post (BASE_URL ++ tokD) payload_ultimo] := by
  simp +decide only [hS1, hA1, hH1, hD1, hS2, hS3, hA3, hH3, hF3, hD3,
    orchestrate, etapaCabecalho, etapaConsulta, etapaSelect, etapaAutocomplete, etapaCaptcha,
    etapaFormulario, etapaResultados, etapaPaginacao, successEnv, okResp, okCaptcha, fixPats,
    resolver_captcha, resolveUrl, extrair_url_token, findFormAction,
    show mainFrameSrc inicialHtml = some "/consulta.jsp;jsessionid=ABC?x=1" from rfl,
    show stripJsessionid "/consulta.jsp;jsessionid=ABC?x=1" = "/consulta.jsp?x=1" from rfl,
    show captchaImgSrc consultaHtml = some "/captcha.png" from rfl,
    show scriptsJs consultaHtml = [scriptNode "SEL", scriptNode "AUTO"] from rfl,
    show scriptsJs formHtml = [scriptNode "HTML1"] from rfl,
    show scriptsJs c9Res1 = [scriptNode "HTML2"] from rfl,
    show findAll (fun n => n.tagIs "script") consultaHtml =
      [scriptNode "SEL", scriptNode "AUTO", plainScript "FORM"] from rfl,
    show containsStr (allText c9Res1) MARKER_MAIS_ANTIGAS = true from by decide,
    show scriptText (scriptNode "SEL") = some "SEL" from rfl,
    show scriptText (scriptNode "AUTO") = some "AUTO" from rfl,
    show scriptText (scriptNode "HTML1") = some "HTML1" from rfl,
    show scriptText (scriptNode "HTML2") = some "HTML2" from rfl,
    show scriptText (plainScript "FORM") = some "FORM" from rfl,
    decide_True, decide_False, if_true, if_false, ite_true, ite_false, Bool.not_true,
    Bool.not_false, ne_eq, List.cons_append, List.nil_append, List.singleton_append]

/-- C9 witness: the theorem applied at concrete absolute tokens; the
select, autocomplete, form and first-results requests hit the tokens
verbatim, while the second-page POST goes to the token glued after the
base URL. -/
theorem c9_witness :
    hasTj "http://s/?_tj=1&codComarca=-1" = true ∧
    strStarts "http://d/?_tj=4" "http" = true ∧
    (orchestrate (fixPats "http://s/?_tj=1&codComarca=-1" "http://a/?_tj=2" "http://h/?_tj=3"
        "http://d/?_tj=4" "http://f/") (successEnv c9Res1 docEmpty) "123" ⟨0, 0, 0, 0⟩).2.1 =
    [Request.get (BASE_URL ++ "/projudi_consulta/"),
     Request.get (BASE_URL ++ "/projudi_consulta/cabecalho.jsp"),
     Request.get (BASE_URL ++ "/consulta.jsp?x=1"),
     Request.get "http://s/?_tj=1&codComarca=-1",
     Request.post "http://a/?_tj=2" (payload_segundo_ajax "123"),
     Request.get (BASE_URL ++ "/captcha.png"),
     Request.post "http://f/" (payload_form "123" "OCR"),
     Request.post "http://h/?_tj=3" payload_ultimo,
     Request.post (BASE_URL ++ "http://d/?_tj=4") payload_ultimo] :=
  ⟨by decide, by decide,
   c9_second_page_unconditional_base_url "http://s/?_tj=1&codComarca=-1" "http://a/?_tj=2"
     "http://h/?_tj=3" "http://d/?_tj=4" "http://f/" "123" ⟨0, 0, 0, 0⟩
     (by decide) (by decide) (by decide) (by decide) (by decide)
     (by decide) (by decide) (by decide) (by decide) (by decide)⟩

end Tjpr
